import Mathlib

/-!
Shallow embedding of the memory-usage event processor of
`tracetools_analysis` (file
`tracetools_analysis/processor/memory_usage.py`), together with proofs
about its behaviour.

The processor keeps two pieces of state:
* `memory` — the allocation table, a map from pointer to the last
  recorded memory difference (`self._memory` in the source, a Python
  dict, embedded as `Nat → Option Int`);
* `data_model` — the memory-usage data model, an append-only ledger of
  `(timestamp, tid, memory_difference)` records.
-/

/-- Per-event metadata (timestamp and thread id), as in `EventMetadata`. -/
structure EventMetadata where
  timestamp : Nat
  tid : Nat
deriving DecidableEq, Repr

/-- The field values the six handlers extract from a raw event via
`get_field`.  Pointers and sizes are non-negative trace integers. -/
structure Event where
  ptr : Nat
  size : Nat
  nmemb : Nat
  in_ptr : Nat
  out_ptr : Nat
deriving DecidableEq, Repr

/-- Modelled from the spec: `MemoryUsageDataModel` lives in
`tracetools_analysis/data_model/memory_usage.py`, which is not part of
the sources at hand; §3/§4.4 of the specification describe it as an
append-only, insertion-ordered sequence of `(timestamp, thread_id,
size_delta)` records, created empty and mutated only through a single
append operation that preserves call order and never fails. -/
structure MemoryUsageDataModel where
  memory_diff : List (Nat × Nat × Int)
deriving DecidableEq, Repr

/-- Modelled from the spec: the single append operation of the
Memory Usage Data Model (§4.4): it appends one complete record at the
end, preserves call order, and never fails. -/
def MemoryUsageDataModel.add_memory_difference (m : MemoryUsageDataModel)
    (timestamp : Nat) (tid : Nat) (memory_difference : Int) :
    MemoryUsageDataModel :=
  ⟨m.memory_diff ++ [(timestamp, tid, memory_difference)]⟩

/-- State of `MemoryUsageHandler`: the data model being filled
(`self._data_model`, exposed as `self.data`) and the temporary buffer
`self._memory : Dict[int, int]` mapping a pointer to the memory size
currently recorded at it. -/
structure MemoryUsageHandler where
  data_model : MemoryUsageDataModel
  memory : Nat → Option Int

/-- A fresh handler: empty data model, empty allocation table
(`MemoryUsageHandler.__init__`). -/
def MemoryUsageHandler.init : MemoryUsageHandler :=
  { data_model := ⟨[]⟩, memory := fun _ => none }

/-- `MemoryUsageHandler._handle(event, metadata, ptr, size)`:
`memory_difference = size`; if it is non-zero the table entry at `ptr`
is overwritten with it; otherwise the previously stored size at `ptr`
is fetched (if any) and negated; finally the record is added to the
data model unconditionally. -/
def MemoryUsageHandler.handle (h : MemoryUsageHandler)
    (metadata : EventMetadata) (ptr : Nat) (size : Nat) :
    MemoryUsageHandler :=
  let timestamp := metadata.timestamp
  let tid := metadata.tid
  let memory_difference : Int := size
  if memory_difference ≠ 0 then
    { memory := fun p => if p = ptr then some memory_difference else h.memory p
      data_model := h.data_model.add_memory_difference timestamp tid memory_difference }
  else
    let memory_difference :=
      match h.memory ptr with
      | some allocated_memory => -allocated_memory
      | none => memory_difference
    { memory := h.memory
      data_model := h.data_model.add_memory_difference timestamp tid memory_difference }

/-- `_handle_malloc`: guard `ptr != 0`, then `_handle(ptr, size)`. -/
def MemoryUsageHandler.handle_malloc (h : MemoryUsageHandler)
    (event : Event) (metadata : EventMetadata) : MemoryUsageHandler :=
  let ptr := event.ptr
  if ptr ≠ 0 then
    let size := event.size
    h.handle metadata ptr size
  else h

/-- `_handle_calloc`: guard `ptr != 0`, then `_handle(ptr, size * nmemb)`. -/
def MemoryUsageHandler.handle_calloc (h : MemoryUsageHandler)
    (event : Event) (metadata : EventMetadata) : MemoryUsageHandler :=
  let ptr := event.ptr
  if ptr ≠ 0 then
    let nmemb := event.nmemb
    let size := event.size
    h.handle metadata ptr (size * nmemb)
  else h

/-- `_handle_realloc`: guard `ptr != 0`, then `_handle(ptr, 0)` followed
by `_handle(in_ptr, size)`. -/
def MemoryUsageHandler.handle_realloc (h : MemoryUsageHandler)
    (event : Event) (metadata : EventMetadata) : MemoryUsageHandler :=
  let ptr := event.ptr
  if ptr ≠ 0 then
    let new_ptr := event.in_ptr
    let size := event.size
    (h.handle metadata ptr 0).handle metadata new_ptr size
  else h

/-- `_handle_free`: guard `ptr != 0`, then `_handle(ptr, 0)`. -/
def MemoryUsageHandler.handle_free (h : MemoryUsageHandler)
    (event : Event) (metadata : EventMetadata) : MemoryUsageHandler :=
  let ptr := event.ptr
  if ptr ≠ 0 then
    h.handle metadata ptr 0
  else h

/-- `_handle_memalign`: guard `ptr != 0`, then `_handle(ptr, size)`. -/
def MemoryUsageHandler.handle_memalign (h : MemoryUsageHandler)
    (event : Event) (metadata : EventMetadata) : MemoryUsageHandler :=
  let ptr := event.ptr
  if ptr ≠ 0 then
    let size := event.size
    h.handle metadata ptr size
  else h

/-- `_handle_posix_memalign`: guard `out_ptr != 0`, then
`_handle(out_ptr, size)`. -/
def MemoryUsageHandler.handle_posix_memalign (h : MemoryUsageHandler)
    (event : Event) (metadata : EventMetadata) : MemoryUsageHandler :=
  let ptr := event.out_ptr
  if ptr ≠ 0 then
    let size := event.size
    h.handle metadata ptr size
  else h

/-- The delta that `_handle` resolves for a zero-size (release) effect at
`ptr`: the negated last recorded size, or `0` when the pointer is
untracked. -/
def releaseDelta (h : MemoryUsageHandler) (ptr : Nat) : Int :=
  match h.memory ptr with
  | some allocated_memory => -allocated_memory
  | none => 0

/-- The concrete scenario of §8 of the spec: from a fresh handler,
process `malloc(ptr=100,size=50)`, `malloc(ptr=200,size=30)`,
`free(ptr=100)`, `free(ptr=999)` (timestamps 1..4, thread id 11). -/
def c4Run : MemoryUsageHandler :=
  ((((MemoryUsageHandler.init.handle_malloc
      ⟨100, 50, 0, 0, 0⟩ ⟨1, 11⟩).handle_malloc
      ⟨200, 30, 0, 0, 0⟩ ⟨2, 11⟩).handle_free
      ⟨100, 0, 0, 0, 0⟩ ⟨3, 11⟩).handle_free
      ⟨999, 0, 0, 0, 0⟩ ⟨4, 11⟩)

/-- Unconditional shape of `_handle`'s effect on the data model: exactly
one record is appended, whose delta is the requested size when non-zero
and the resolved release delta otherwise. -/
theorem handle_model (h : MemoryUsageHandler) (md : EventMetadata)
    (ptr size : Nat) :
    (h.handle md ptr size).data_model.memory_diff =
      h.data_model.memory_diff ++
        [(md.timestamp, md.tid,
          if size = 0 then releaseDelta h ptr else (size : Int))] := by
  by_cases hs : size = 0
  · subst hs
    simp only [MemoryUsageHandler.handle, releaseDelta,
      MemoryUsageDataModel.add_memory_difference, Nat.cast_zero, ne_eq,
      not_true_eq_false, if_false, if_pos rfl]
    cases h.memory ptr <;> simp
  · simp [MemoryUsageHandler.handle,
      MemoryUsageDataModel.add_memory_difference, hs]

/-- A zero-size (release) effect leaves the allocation table untouched. -/
theorem handle_memory_zero (h : MemoryUsageHandler) (md : EventMetadata)
    (ptr : Nat) : (h.handle md ptr 0).memory = h.memory := by
  simp only [MemoryUsageHandler.handle, Nat.cast_zero, ne_eq,
    not_true_eq_false, if_false]

/-- A non-zero effect overwrites the allocation table exactly at `ptr`. -/
theorem handle_memory_pos (h : MemoryUsageHandler) (md : EventMetadata)
    (ptr size : Nat) (hs : size ≠ 0) :
    (h.handle md ptr size).memory =
      fun p => if p = ptr then some (size : Int) else h.memory p := by
  simp [MemoryUsageHandler.handle, hs]

/-- C1 (counterexample): invoking `_handle` with `size = 0` at the
untracked pointer `999` of a fresh handler does append a record — the
ledger goes from empty to one zero-delta record, contradicting "no
record is appended". -/
theorem C1_counterexample :
    (MemoryUsageHandler.init.handle ⟨5, 7⟩ 999 0).data_model.memory_diff
        = [(5, 7, 0)] ∧
      (MemoryUsageHandler.init.handle ⟨5, 7⟩ 999 0).data_model.memory_diff
        ≠ MemoryUsageHandler.init.data_model.memory_diff := by
  constructor
  · decide
  · decide

/-- C1 (amended): an invocation of `_handle` with `requested_size = 0`
at a pointer absent from the allocation table appends exactly one
record, with delta `0`: zero-delta records are retained, not
suppressed. -/
theorem C1_zero_delta_record_appended (h : MemoryUsageHandler)
    (md : EventMetadata) (ptr : Nat) (hm : h.memory ptr = none) :
    (h.handle md ptr 0).data_model.memory_diff =
      h.data_model.memory_diff ++ [(md.timestamp, md.tid, 0)] := by
  rw [handle_model]
  simp [releaseDelta, hm]

/-- C1 (witness): the amended statement at a fresh handler and
pointer `999`. -/
theorem C1_zero_delta_record_appended_witness :
    (MemoryUsageHandler.init.handle ⟨5, 7⟩ 999 0).data_model.memory_diff =
      MemoryUsageHandler.init.data_model.memory_diff ++ [(5, 7, 0)] :=
  C1_zero_delta_record_appended MemoryUsageHandler.init ⟨5, 7⟩ 999 rfl

/-- C2 (counterexample): a realloc event with `ptr = 1`, `in_ptr = 0`,
`size = 5` on a fresh handler appends two records and stores an entry
at pointer `0` — a zero `in_ptr` does not inhibit the state change or
the records. -/
theorem C2_counterexample :
    (MemoryUsageHandler.init.handle_realloc
        ⟨1, 5, 0, 0, 0⟩ ⟨3, 4⟩).data_model.memory_diff = [(3, 4, 0), (3, 4, 5)] ∧
      (MemoryUsageHandler.init.handle_realloc
        ⟨1, 5, 0, 0, 0⟩ ⟨3, 4⟩).memory 0 = some 5 := by
  constructor
  · decide
  · decide

/-- C2 (amended): the null-pointer guard applies to the pointer field
each handler checks — `ptr` for malloc, calloc, realloc, free and
memalign, `out_ptr` for posix_memalign: when that field is `0` the
event leaves the handler state (table and ledger) entirely unchanged.
Realloc's `in_ptr` is not guarded. -/
theorem C2_null_pointer_guard (h : MemoryUsageHandler) (e : Event)
    (md : EventMetadata) :
    (e.ptr = 0 → h.handle_malloc e md = h) ∧
      (e.ptr = 0 → h.handle_calloc e md = h) ∧
      (e.ptr = 0 → h.handle_realloc e md = h) ∧
      (e.ptr = 0 → h.handle_free e md = h) ∧
      (e.ptr = 0 → h.handle_memalign e md = h) ∧
      (e.out_ptr = 0 → h.handle_posix_memalign e md = h) := by
  refine ⟨fun hp => ?_, fun hp => ?_, fun hp => ?_, fun hp => ?_,
    fun hp => ?_, fun hp => ?_⟩
  · simp [MemoryUsageHandler.handle_malloc, hp]
  · simp [MemoryUsageHandler.handle_calloc, hp]
  · simp [MemoryUsageHandler.handle_realloc, hp]
  · simp [MemoryUsageHandler.handle_free, hp]
  · simp [MemoryUsageHandler.handle_memalign, hp]
  · simp [MemoryUsageHandler.handle_posix_memalign, hp]

/-- C2 (witness): the amended guard at a fresh handler and an event
whose `ptr` and `out_ptr` fields are both `0`. -/
theorem C2_null_pointer_guard_witness :
    (MemoryUsageHandler.init.handle_malloc ⟨0, 5, 2, 3, 0⟩ ⟨1, 2⟩
        = MemoryUsageHandler.init) ∧
      (MemoryUsageHandler.init.handle_calloc ⟨0, 5, 2, 3, 0⟩ ⟨1, 2⟩
        = MemoryUsageHandler.init) ∧
      (MemoryUsageHandler.init.handle_realloc ⟨0, 5, 2, 3, 0⟩ ⟨1, 2⟩
        = MemoryUsageHandler.init) ∧
      (MemoryUsageHandler.init.handle_free ⟨0, 5, 2, 3, 0⟩ ⟨1, 2⟩
        = MemoryUsageHandler.init) ∧
      (MemoryUsageHandler.init.handle_memalign ⟨0, 5, 2, 3, 0⟩ ⟨1, 2⟩
        = MemoryUsageHandler.init) ∧
      (MemoryUsageHandler.init.handle_posix_memalign ⟨0, 5, 2, 3, 0⟩ ⟨1, 2⟩
        = MemoryUsageHandler.init) := by
  obtain ⟨h1, h2, h3, h4, h5, h6⟩ :=
    C2_null_pointer_guard MemoryUsageHandler.init ⟨0, 5, 2, 3, 0⟩ ⟨1, 2⟩
  exact ⟨h1 rfl, h2 rfl, h3 rfl, h4 rfl, h5 rfl, h6 rfl⟩

/-- C3 (counterexample): after `malloc(ptr=7,size=5)`, the realloc
event `realloc(ptr=7, in_ptr=7, size=0)` appends `[-5, -5]`, not the
`[-5, 0]` the claim predicts for `S = 0`: the second effect is itself a
release resolved against the table, not an allocation entry of `S`. -/
theorem C3_counterexample :
    ((MemoryUsageHandler.init.handle_malloc ⟨7, 5, 0, 0, 0⟩
        ⟨0, 0⟩).handle_realloc ⟨7, 0, 0, 7, 0⟩ ⟨1, 0⟩).data_model.memory_diff
        = [(0, 0, 5), (1, 0, -5), (1, 0, -5)] ∧
      ((MemoryUsageHandler.init.handle_malloc ⟨7, 5, 0, 0, 0⟩
        ⟨0, 0⟩).handle_realloc ⟨7, 0, 0, 7, 0⟩ ⟨1, 0⟩).data_model.memory_diff
        ≠ [(0, 0, 5), (1, 0, -5), (1, 0, 0)] := by
  constructor
  · decide
  · decide

/-- C3 (amended): for every realloc event with old pointer `A ≠ 0`, new
pointer `B` and size `S ≠ 0`, exactly two ledger entries are appended,
in order: first a release at `A` with delta minus `A`'s last known size
(`0` if untracked), then an allocation entry of `S` at `B`; this holds
even when `A = B`. -/
theorem C3_realloc_two_effects (h : MemoryUsageHandler) (e : Event)
    (md : EventMetadata) (hp : e.ptr ≠ 0) (hs : e.size ≠ 0) :
    (h.handle_realloc e md).data_model.memory_diff =
      h.data_model.memory_diff ++
        [(md.timestamp, md.tid, releaseDelta h e.ptr),
          (md.timestamp, md.tid, (e.size : Int))] := by
  simp only [MemoryUsageHandler.handle_realloc, hp, ne_eq,
    not_false_eq_true, if_true]
  rw [handle_model, handle_model]
  simp [hs]

/-- C3 (witness): the amended statement at a fresh handler for
`realloc(ptr=7, in_ptr=8, size=16)`. -/
theorem C3_realloc_two_effects_witness :
    (MemoryUsageHandler.init.handle_realloc
        ⟨7, 16, 0, 8, 0⟩ ⟨2, 3⟩).data_model.memory_diff =
      MemoryUsageHandler.init.data_model.memory_diff ++
        [(2, 3, releaseDelta MemoryUsageHandler.init 7), (2, 3, 16)] :=
  C3_realloc_two_effects MemoryUsageHandler.init ⟨7, 16, 0, 8, 0⟩ ⟨2, 3⟩
    (by decide) (by decide)

/-- C4 (counterexample): at the end of the concrete scenario the
allocation table still holds the stale entry `100 ↦ 50`, so it is not
the map `{200 ↦ 30}`. -/
theorem C4_counterexample :
    c4Run.memory 100 = some 50 ∧
      c4Run.memory ≠ fun p => if p = 200 then some (30 : Int) else none := by
  refine ⟨by decide, fun heq => ?_⟩
  have h100 := congrFun heq 100
  rw [show c4Run.memory 100 = some 50 by decide] at h100
  simp at h100

/-- C4 (amended): the concrete scenario yields the ledger
`[+50, +30, -50, 0]` in order (the zero-delta record for `free(999)`
retained), and the final allocation table maps `200 ↦ 30` while
retaining the stale entry `100 ↦ 50`, with `999` absent. -/
theorem C4_concrete_scenario :
    c4Run.data_model.memory_diff
        = [(1, 11, 50), (2, 11, 30), (3, 11, -50), (4, 11, 0)] ∧
      c4Run.memory 200 = some 30 ∧ c4Run.memory 100 = some 50 ∧
      c4Run.memory 999 = none := by
  refine ⟨by decide, by decide, by decide, by decide⟩

/-- C5: `malloc(ptr, 10)` then `malloc(ptr, 20)` with no intervening
free overwrites the table entry to the fresh absolute size `20`, and a
subsequent `free(ptr)` appends delta `-20` (not `-10`, not `-30`). -/
theorem C5_overwrite_semantics (h : MemoryUsageHandler)
    (md1 md2 md3 : EventMetadata) (ptr : Nat) (hp : ptr ≠ 0) :
    ((h.handle_malloc ⟨ptr, 10, 0, 0, 0⟩ md1).handle_malloc
        ⟨ptr, 20, 0, 0, 0⟩ md2).memory ptr = some 20 ∧
      (((h.handle_malloc ⟨ptr, 10, 0, 0, 0⟩ md1).handle_malloc
          ⟨ptr, 20, 0, 0, 0⟩ md2).handle_free
          ⟨ptr, 0, 0, 0, 0⟩ md3).data_model.memory_diff =
        ((h.handle_malloc ⟨ptr, 10, 0, 0, 0⟩ md1).handle_malloc
          ⟨ptr, 20, 0, 0, 0⟩ md2).data_model.memory_diff ++
          [(md3.timestamp, md3.tid, -20)] := by
  have e1 : h.handle_malloc ⟨ptr, 10, 0, 0, 0⟩ md1 = h.handle md1 ptr 10 := by
    simp [MemoryUsageHandler.handle_malloc, hp]
  have e2 : ∀ x : MemoryUsageHandler,
      x.handle_malloc ⟨ptr, 20, 0, 0, 0⟩ md2 = x.handle md2 ptr 20 := by
    intro x; simp [MemoryUsageHandler.handle_malloc, hp]
  have e3 : ∀ x : MemoryUsageHandler,
      x.handle_free ⟨ptr, 0, 0, 0, 0⟩ md3 = x.handle md3 ptr 0 := by
    intro x; simp [MemoryUsageHandler.handle_free, hp]
  have hmem : ((h.handle md1 ptr 10).handle md2 ptr 20).memory ptr
      = some 20 := by
    rw [handle_memory_pos _ _ _ _ (by decide)]; simp
  refine ⟨by rw [e1, e2]; exact hmem, ?_⟩
  rw [e1, e2, e3, handle_model]
  simp [releaseDelta, hmem]

/-- C5 (witness): the overwrite behaviour at pointer `1` from a fresh
handler. -/
theorem C5_overwrite_semantics_witness :
    ((MemoryUsageHandler.init.handle_malloc ⟨1, 10, 0, 0, 0⟩
        ⟨1, 2⟩).handle_malloc ⟨1, 20, 0, 0, 0⟩ ⟨3, 2⟩).memory 1 = some 20 ∧
      (((MemoryUsageHandler.init.handle_malloc ⟨1, 10, 0, 0, 0⟩
          ⟨1, 2⟩).handle_malloc ⟨1, 20, 0, 0, 0⟩ ⟨3, 2⟩).handle_free
          ⟨1, 0, 0, 0, 0⟩ ⟨5, 2⟩).data_model.memory_diff =
        ((MemoryUsageHandler.init.handle_malloc ⟨1, 10, 0, 0, 0⟩
          ⟨1, 2⟩).handle_malloc ⟨1, 20, 0, 0, 0⟩ ⟨3, 2⟩).data_model.memory_diff ++
          [(5, 2, -20)] :=
  C5_overwrite_semantics MemoryUsageHandler.init ⟨1, 2⟩ ⟨3, 2⟩ ⟨5, 2⟩ 1
    (by decide)

/-- C6: a matched `malloc(ptr, N)` followed by `free(ptr)` appends two
records, `N` then `-N`, and their deltas sum to `0`. -/
theorem C6_conservation (h : MemoryUsageHandler) (md1 md2 : EventMetadata)
    (ptr N : Nat) (hp : ptr ≠ 0) (hN : N ≠ 0) :
    ((h.handle_malloc ⟨ptr, N, 0, 0, 0⟩ md1).handle_free
        ⟨ptr, 0, 0, 0, 0⟩ md2).data_model.memory_diff =
      h.data_model.memory_diff ++
        [(md1.timestamp, md1.tid, (N : Int)),
          (md2.timestamp, md2.tid, -(N : Int))] ∧
      ((((h.handle_malloc ⟨ptr, N, 0, 0, 0⟩ md1).handle_free
          ⟨ptr, 0, 0, 0, 0⟩ md2).data_model.memory_diff.drop
          h.data_model.memory_diff.length).map (fun r => r.2.2)).sum = 0 := by
  have e1 : h.handle_malloc ⟨ptr, N, 0, 0, 0⟩ md1 = h.handle md1 ptr N := by
    simp [MemoryUsageHandler.handle_malloc, hp]
  have e2 : ∀ x : MemoryUsageHandler,
      x.handle_free ⟨ptr, 0, 0, 0, 0⟩ md2 = x.handle md2 ptr 0 := by
    intro x; simp [MemoryUsageHandler.handle_free, hp]
  have hmem : (h.handle md1 ptr N).memory ptr = some (N : Int) := by
    rw [handle_memory_pos _ _ _ _ hN]; simp
  have key : ((h.handle_malloc ⟨ptr, N, 0, 0, 0⟩ md1).handle_free
      ⟨ptr, 0, 0, 0, 0⟩ md2).data_model.memory_diff =
      h.data_model.memory_diff ++
        [(md1.timestamp, md1.tid, (N : Int)),
          (md2.timestamp, md2.tid, -(N : Int))] := by
    rw [e1, e2, handle_model, handle_model]
    simp [hN, releaseDelta, hmem]
  refine ⟨key, ?_⟩
  rw [key, List.drop_left]
  simp

/-- C6 (witness): conservation at pointer `1`, size `4`, from a fresh
handler. -/
theorem C6_conservation_witness :
    ((MemoryUsageHandler.init.handle_malloc ⟨1, 4, 0, 0, 0⟩
        ⟨1, 2⟩).handle_free ⟨1, 0, 0, 0, 0⟩ ⟨3, 2⟩).data_model.memory_diff =
      MemoryUsageHandler.init.data_model.memory_diff ++
        [(1, 2, 4), (3, 2, -4)] ∧
      ((((MemoryUsageHandler.init.handle_malloc ⟨1, 4, 0, 0, 0⟩
          ⟨1, 2⟩).handle_free ⟨1, 0, 0, 0, 0⟩ ⟨3, 2⟩).data_model.memory_diff.drop
          MemoryUsageHandler.init.data_model.memory_diff.length).map
          (fun r => r.2.2)).sum = 0 :=
  C6_conservation MemoryUsageHandler.init ⟨1, 2⟩ ⟨3, 2⟩ 1 4
    (by decide) (by decide)

/-- C7: a `free` event on a non-zero pointer absent from the allocation
table is handled without failure (the embedding is a total function),
leaves the table unchanged and appends a single zero-delta record. -/
theorem C7_untracked_release (h : MemoryUsageHandler) (e : Event)
    (md : EventMetadata) (hp : e.ptr ≠ 0) (hm : h.memory e.ptr = none) :
    (h.handle_free e md).memory = h.memory ∧
      (h.handle_free e md).data_model.memory_diff =
        h.data_model.memory_diff ++ [(md.timestamp, md.tid, 0)] := by
  have e1 : h.handle_free e md = h.handle md e.ptr 0 := by
    simp [MemoryUsageHandler.handle_free, hp]
  refine ⟨by rw [e1]; exact handle_memory_zero h md e.ptr, ?_⟩
  rw [e1, handle_model]
  simp [releaseDelta, hm]

/-- C7 (witness): `free(ptr=999)` on a fresh handler. -/
theorem C7_untracked_release_witness :
    (MemoryUsageHandler.init.handle_free ⟨999, 0, 0, 0, 0⟩ ⟨4, 11⟩).memory
        = MemoryUsageHandler.init.memory ∧
      (MemoryUsageHandler.init.handle_free
          ⟨999, 0, 0, 0, 0⟩ ⟨4, 11⟩).data_model.memory_diff =
        MemoryUsageHandler.init.data_model.memory_diff ++ [(4, 11, 0)] :=
  C7_untracked_release MemoryUsageHandler.init ⟨999, 0, 0, 0, 0⟩ ⟨4, 11⟩
    (by decide) rfl

/-- C8: a release effect (`_handle` with `size = 0`) leaves the
allocation table completely unchanged, and a non-zero effect at `ptr`
changes only the entry at key `ptr` (to `size`), leaving every other
key untouched. -/
theorem C8_frame_effect (h : MemoryUsageHandler) (md : EventMetadata)
    (ptr size : Nat) :
    (size = 0 → (h.handle md ptr size).memory = h.memory) ∧
      (size ≠ 0 → (h.handle md ptr size).memory ptr = some (size : Int) ∧
        ∀ q, q ≠ ptr → (h.handle md ptr size).memory q = h.memory q) := by
  constructor
  · intro hs; subst hs; exact handle_memory_zero h md ptr
  · intro hs
    rw [handle_memory_pos _ _ _ _ hs]
    exact ⟨by simp, fun q hq => by simp [hq]⟩

/-- C8 (witness): the frame conditions at concrete inputs: a release at
pointer `5` leaves the table unchanged; an allocation of `9` at pointer
`5` sets key `5` and leaves key `6` untouched. -/
theorem C8_frame_effect_witness :
    (MemoryUsageHandler.init.handle ⟨1, 2⟩ 5 0).memory
        = MemoryUsageHandler.init.memory ∧
      (MemoryUsageHandler.init.handle ⟨1, 2⟩ 5 9).memory 5 = some 9 ∧
      (MemoryUsageHandler.init.handle ⟨1, 2⟩ 5 9).memory 6
        = MemoryUsageHandler.init.memory 6 :=
  ⟨(C8_frame_effect MemoryUsageHandler.init ⟨1, 2⟩ 5 0).1 rfl,
    ((C8_frame_effect MemoryUsageHandler.init ⟨1, 2⟩ 5 9).2 (by decide)).1,
    ((C8_frame_effect MemoryUsageHandler.init ⟨1, 2⟩ 5 9).2 (by decide)).2 6
      (by decide)⟩

/-- C9: every invocation of `_handle` appends exactly one record — the
ledger grows by one entry per invocation, with the zero-delta record of
an untracked release retained rather than suppressed. -/
theorem C9_each_invocation_appends_one (h : MemoryUsageHandler)
    (md : EventMetadata) (ptr size : Nat) :
    (h.handle md ptr size).data_model.memory_diff =
      h.data_model.memory_diff ++
        [(md.timestamp, md.tid,
          if size = 0 then releaseDelta h ptr else (size : Int))] ∧
      (h.handle md ptr size).data_model.memory_diff.length =
        h.data_model.memory_diff.length + 1 := by
  refine ⟨handle_model h md ptr size, ?_⟩
  rw [handle_model]
  simp

/-- C10: `malloc(ptr, N)` followed by two `free(ptr)` events appends
`[N, -N, -N]`: the release leaves the stale table entry in place, so
the second free re-reads it and emits `-N` again. -/
theorem C10_double_free (h : MemoryUsageHandler)
    (md1 md2 md3 : EventMetadata) (ptr N : Nat) (hp : ptr ≠ 0)
    (hN : N ≠ 0) :
    (((h.handle_malloc ⟨ptr, N, 0, 0, 0⟩ md1).handle_free
        ⟨ptr, 0, 0, 0, 0⟩ md2).handle_free
        ⟨ptr, 0, 0, 0, 0⟩ md3).data_model.memory_diff =
      h.data_model.memory_diff ++
        [(md1.timestamp, md1.tid, (N : Int)),
          (md2.timestamp, md2.tid, -(N : Int)),
          (md3.timestamp, md3.tid, -(N : Int))] := by
  have e1 : h.handle_malloc ⟨ptr, N, 0, 0, 0⟩ md1 = h.handle md1 ptr N := by
    simp [MemoryUsageHandler.handle_malloc, hp]
  have e2 : ∀ (x : MemoryUsageHandler) (md : EventMetadata),
      x.handle_free ⟨ptr, 0, 0, 0, 0⟩ md = x.handle md ptr 0 := by
    intro x md; simp [MemoryUsageHandler.handle_free, hp]
  have hmem : (h.handle md1 ptr N).memory ptr = some (N : Int) := by
    rw [handle_memory_pos _ _ _ _ hN]; simp
  have hmem2 : ((h.handle md1 ptr N).handle md2 ptr 0).memory ptr
      = some (N : Int) := by
    rw [handle_memory_zero]; exact hmem
  rw [e1, e2, e2, handle_model, handle_model, handle_model]
  simp [hN, releaseDelta, hmem, hmem2]

/-- C10 (witness): the double-free double count at pointer `1`, size
`4`, from a fresh handler. -/
theorem C10_double_free_witness :
    (((MemoryUsageHandler.init.handle_malloc ⟨1, 4, 0, 0, 0⟩
        ⟨1, 2⟩).handle_free ⟨1, 0, 0, 0, 0⟩ ⟨3, 2⟩).handle_free
        ⟨1, 0, 0, 0, 0⟩ ⟨5, 2⟩).data_model.memory_diff =
      MemoryUsageHandler.init.data_model.memory_diff ++
        [(1, 2, 4), (3, 2, -4), (5, 2, -4)] :=
  C10_double_free MemoryUsageHandler.init ⟨1, 2⟩ ⟨3, 2⟩ ⟨5, 2⟩ 1 4
    (by decide) (by decide)
